import Mathlib

/-!
Shallow embedding of the gfapi client library (src/index.js): JavaScript
value semantics needed by the request pipeline, the two result
normalizers `_result` and `_steamResult`, the paginated list operation
`_getList`, the Steam inventory helper `steam_inventory_get`, base-URL
selection and TOTP-secret merging in the constructor, the authorization
header `_authorizationHeader`, and (modelled from the spec) the
promise-ratelimit rate limiter the constructor instantiates with 1000 ms.
-/

namespace Gfapi

/-- JavaScript values as they occur in this library: `undefined` is the
JavaScript `undefined` (also the result of reading an absent field),
`null` the JavaScript `null`; objects are insertion-ordered field lists.
Numbers in every response this library handles are integers. -/
inductive JsVal where
  | undefined : JsVal
  | null : JsVal
  | bool : Bool → JsVal
  | num : Int → JsVal
  | str : String → JsVal
  | arr : List JsVal → JsVal
  | obj : List (String × JsVal) → JsVal

/-- A JavaScript object body: insertion-ordered association list. -/
abbrev JsObj := List (String × JsVal)

namespace JsVal

/-- JavaScript truthiness: `undefined`, `null`, `false`, `0` and the empty
string are falsy; every array and object is truthy. -/
def truthy : JsVal → Bool
  | undefined => false
  | null => false
  | bool b => b
  | num n => n != 0
  | str s => s ≠ ""
  | arr _ => true
  | obj _ => true

/-- Reading field `k` of a value: the field of an object when present,
`undefined` otherwise (matching property reads on the non-null non-undefined
values this code dereferences). -/
def getField : JsVal → String → JsVal
  | obj fields, k =>
    match fields.find? (fun p => p.1 = k) with
    | some p => p.2
    | none => undefined
  | _, _ => undefined

mutual

/-- String conversion used by JavaScript array-join and template coercion:
`null` and `undefined` join as the empty string, arrays join their
elements with commas, plain objects render as the object tag. -/
def joinString : JsVal → String
  | undefined => ""
  | null => ""
  | bool b => cond b "true" "false"
  | num n => toString n
  | str s => s
  | arr xs => joinList xs
  | obj _ => "[object Object]"

/-- Comma-join of array elements, as in `Array.prototype.toString`. -/
def joinList : List JsVal → String
  | [] => ""
  | [x] => joinString x
  | x :: y :: xs => joinString x ++ "," ++ joinList (y :: xs)

end

/-- JavaScript loose equality `x == lit` against a non-numeric string
literal (the code compares only against the literal `'SUCCESS'`): a string
compares directly; an array coerces through its comma-join; numbers and
booleans coerce the string side through `ToNumber`, which is `NaN` for a
non-numeric literal, so they never match; `null`, `undefined` and plain
objects never match. -/
def looseEqStr : JsVal → String → Bool
  | str s, t => s = t
  | arr xs, t => joinString (arr xs) = t
  | _, _ => false

end JsVal

namespace Util

open JsVal

/-- Util.emptyArray from src/index.js: true if the value is `undefined`,
or an array of length 0 (note: false on `null`). -/
def emptyArray : JsVal → Bool
  | .undefined => true
  | .arr xs => xs.length == 0
  | _ => false

/-- Util.isNull from src/index.js: true if the value is `undefined` or
`null`. -/
def isNull : JsVal → Bool
  | .undefined => true
  | .null => true
  | _ => false

/-- Util.options from src/index.js: the first argument that is neither
`undefined` nor `null`, else JavaScript `null`. -/
def options : List JsVal → JsVal
  | [] => .null
  | x :: xs => if isNull x then options xs else x

end Util

/-- Reading field `k` of an object body, as `JsVal.getField` on `obj q`. -/
def getFieldObj (q : JsObj) (k : String) : JsVal :=
  match q.find? (fun p => p.1 = k) with
  | some p => p.2
  | none => .undefined

/-- JavaScript property assignment `q[k] = v`: updates the binding in
place when the key is present (an object holds at most one slot per key),
appends it otherwise; insertion order is preserved, as for JavaScript
objects. -/
def setField : JsObj → String → JsVal → JsObj
  | [], k, v => [(k, v)]
  | p :: ps, k, v => if p.1 = k then (k, v) :: ps else p :: setField ps k v

/-- JavaScript `k in q` / own-property test on an object body. -/
def hasField (q : JsObj) (k : String) : Bool :=
  q.any (fun p => p.1 = k)

/-- The raw settled HTTP result as node-rest-client delivers it: `data` is
the parsed body, `response` carries the transport statusCode and
statusMessage (kept as JsVal so absence is representable). -/
structure RawResponse where
  data : JsVal
  responseStatusCode : JsVal
  responseStatusMessage : JsVal

/-- Outcome of a normalized call: the JavaScript `null` return (the Empty
sentinel), a returned payload, or a thrown HttpErrors(statusCode,
statusMessage) (the ApiError). -/
inductive NormResult where
  | empty : NormResult
  | value : JsVal → NormResult
  | apiError : JsVal → JsVal → NormResult

open JsVal Util

/-- The expression `result.data || {}` both normalizers open with: the
parsed body, or an empty object when the body is falsy. -/
def apiDataOf (result : RawResponse) : JsVal :=
  if result.data.truthy then result.data else .obj []

/-- The expression `apiData.error || {}` of the primary failure branch. -/
def errorOf (result : RawResponse) : JsVal :=
  if ((apiDataOf result).getField "error").truthy then (apiDataOf result).getField "error"
  else .obj []

/-- The primary result normalizer `_result` from src/index.js lines
438-463, as a function of the settled raw result and the optional query
object; returns the outcome together with the (possibly mutated) query. -/
def resultNorm (result : RawResponse) (query : Option JsObj) :
    NormResult × Option JsObj :=
  let apiData := apiDataOf result
  if apiData.getField "status" |>.looseEqStr "SUCCESS" then
    if isNull (apiData.getField "next_page") && emptyArray (apiData.getField "data") then
      (.empty, query)
    else
      let query1 := query.map (fun q =>
        setField q "nextPage" (options [apiData.getField "next_page"]))
      (.value (apiData.getField "data"), query1)
  else
    let error := errorOf result
    (.apiError (options [error.getField "code", result.responseStatusCode])
               (options [error.getField "message", result.responseStatusMessage]),
     query)

/-- The secondary (Steam inventory) normalizer `_steamResult` from
src/index.js lines 465-486. -/
def steamResultNorm (result : RawResponse) (query : Option JsObj) :
    NormResult × Option JsObj :=
  let apiData := apiDataOf result
  if (apiData.getField "success").truthy then
    if isNull (apiData.getField "more_items") && emptyArray (apiData.getField "assets") then
      (.empty, query)
    else
      let query1 := query.map (fun q =>
        setField q "start_assetid" (options [apiData.getField "last_assetid"]))
      (.value apiData, query1)
  else
    (.apiError result.responseStatusCode result.responseStatusMessage, query)

/-- JavaScript `String.prototype.split` on a one-character separator,
over the string's character list: `"a-b-c"` splits to `["a","b","c"]`,
the empty string to `[""]`. -/
def splitOn (sep : Char) : List Char → List (List Char)
  | [] => [[]]
  | c :: cs =>
    match splitOn sep cs with
    | [] => [[]]
    | h :: t => if c = sep then [] :: h :: t else (c :: h) :: t

/-- CONST.BASE_URL from src/index.js lines 53-57, as an association list
keyed by the environment name (character list, matching the split key
prefix). -/
def BASE_URL : List (List Char × String) :=
  [("production".toList, "https://production-gameflip.fingershock.com/api/v1"),
   ("test".toList, "https://test-gameflip.fingershock.com/api/v1"),
   ("development".toList, "http://localhost:3000/api/v1")]

/-- Base-URL selection from the constructor, src/index.js lines 144-145:
split the key on the dash; with a single fragment use the production URL,
otherwise look the first fragment up in CONST.BASE_URL (`none` is the
JavaScript `undefined` of a missing table entry). -/
def baseUrlOf (apiKey : List Char) : Option String :=
  let split := splitOn '-' apiKey
  if split.length == 1 then
    some "https://production-gameflip.fingershock.com/api/v1"
  else
    (BASE_URL.find? (fun p => p.1 = split.headD [])).map (fun p => p.2)

/-- Primitive stringification of Node's querystring.stringify: strings,
numbers and booleans render as themselves, everything else (including
`null` and `undefined`) as the empty string. Percent-encoding is not
modelled; no key or value in this development needs escaping. -/
def qsPrimitive : JsVal → String
  | .str s => s
  | .num n => toString n
  | .bool b => cond b "true" "false"
  | _ => ""

/-- Node querystring.stringify on an object body: one `k=v` pair per
field joined with ampersands; an array value repeats its key. -/
def qsStringify (q : JsObj) : String :=
  let pairs := q.flatMap (fun p =>
    match p.2 with
    | .arr xs => xs.map (fun x => p.1 ++ "=" ++ qsPrimitive x)
    | v => [p.1 ++ "=" ++ qsPrimitive v])
  String.intercalate "&" pairs

/-- Util.queryString from src/index.js: the stringified query prefixed by
a question mark when non-empty. -/
def queryString (q : JsObj) : String :=
  let qs := qsStringify q
  if qs = "" then "" else "?" ++ qs

/-- Object.assign(target, source): each source field assigned onto the
target in order. Used by the constructor to merge the caller's TOTP
secret over the defaults. -/
def objectAssign (target source : JsObj) : JsObj :=
  source.foldl (fun acc p => setField acc p.1 p.2) target

/-- TOTP secret defaults from the constructor, src/index.js lines
137-142. -/
def secretDefaults : JsObj :=
  [("encoding", .str "base32"), ("algorithm", .str "sha1"),
   ("digits", .num 6), ("period", .num 30)]

/-- The per-instance state the pipeline reads: the API key, the merged
TOTP secret and the selected base URL (the constructor's only credential
writes). -/
structure Client where
  apiKey : String
  secret : JsObj
  baseUrl : Option String

/-- The constructor's credential initialization, src/index.js lines
134-145. -/
def mkClient (apiKey : String) (secret : JsObj) : Client :=
  { apiKey := apiKey,
    secret := objectAssign secretDefaults secret,
    baseUrl := baseUrlOf apiKey.toList }

/-- Modelled from the spec: Speakeasy.totp is not part of this
repository; it either yields the time-based passcode for the configured
secret or fails with a ConfigurationError when the secret is malformed
for the configured encoding. A TotpFn stands for Speakeasy.totp at one
fixed instant: passcode or configuration error per secret object. -/
def TotpFn : Type := JsObj → Except String String

/-- The authorization header `_authorizationHeader` from src/index.js
lines 429-431: the fixed scheme literal, the API key, a colon and the
passcode; a ConfigurationError from the passcode computation propagates
(there is no handler around the Speakeasy.totp call). -/
def authorizationHeader (totp : TotpFn) (c : Client) : Except String String :=
  match totp c.secret with
  | .ok code => .ok ("GFAPI " ++ c.apiKey ++ ":" ++ code)
  | .error e => .error e

/-- Interpolation of a JsVal into a URL position, as `String(x)`:
identical to the join-string on everything the pipeline ever places there
(the truthy `nextPage` continuation). -/
def urlString (v : JsVal) : String :=
  v.joinString

/-- Template rendering of `this.baseUrl` in `_getList`'s URL: a missing
table entry is `undefined` and interpolates as the literal text
`undefined`. -/
def baseUrlText (c : Client) : String :=
  match c.baseUrl with
  | some b => b
  | none => "undefined"

/-- Result of one list-operation call: the outcome, the caller's query
object after the call, the URLs requested over the network (each request
is preceded by exactly one rate-limiter acquisition in `_entry`), and the
client state after the call. -/
structure ListCallOut where
  result : NormResult
  query : JsObj
  requests : List String
  client : Client

/-- The paginated list operation `_getList` from src/index.js lines
366-379, with the transport (node-rest-client's getPromise composed with
the server) abstracted as a function from URL to settled raw result: a
query whose nextPage is strictly `null` short-circuits to the Empty
sentinel before `_entry` and before any request; otherwise the target is
the truthy continuation in nextPage, or else the base URL, path and
query string; the settled result goes through `_result` with the query.
The method assigns no field of `this`, so the client comes back
unchanged. -/
def getList (c : Client) (uri : String) (server : String → RawResponse)
    (query : JsObj) : ListCallOut :=
  match getFieldObj query "nextPage" with
  | .null => { result := .empty, query := query, requests := [], client := c }
  | np =>
    let url := if np.truthy then urlString np
               else baseUrlText c ++ "/" ++ uri ++ queryString query
    let pr := resultNorm (server url) (some query)
    { result := pr.1, query := pr.2.getD query, requests := [url], client := c }

/-- CONST.STEAM.CONTEXT_ID from src/index.js lines 70-74, with the `||
DEFAULT` fallback of steam_inventory_get. -/
def steamContextId (appId : String) : String :=
  match ([("433850", "1"), ("295110", "1"), ("DEFAULT", "2")].find?
      (fun p => p.1 = appId)) with
  | some p => p.2
  | none => "2"

/-- The unauthenticated inventory helper `steam_inventory_get` from
src/index.js lines 340-349: a query whose start_assetid is strictly
`null` short-circuits to the Empty sentinel with no request; otherwise
the Steam community URL is requested and the settled result goes through
`_steamResult` with the query. -/
def steamInventoryGet (c : Client) (profileid appId : String)
    (server : String → RawResponse) (query : JsObj) : ListCallOut :=
  match getFieldObj query "start_assetid" with
  | .null => { result := .empty, query := query, requests := [], client := c }
  | _ =>
    let url := "http://steamcommunity.com/inventory/" ++ profileid ++ "/" ++
      appId ++ "/" ++ steamContextId appId ++ queryString query
    let pr := steamResultNorm (server url) (some query)
    { result := pr.1, query := pr.2.getD query, requests := [url], client := c }

/-- Repeated list calls sharing one query object: `n` successive
`_getList` invocations, accumulating the outcomes and the requested
URLs and threading the mutated query. -/
def getListIter (c : Client) (uri : String) (server : String → RawResponse) :
    JsObj → Nat → List NormResult × JsObj × List String
  | query, 0 => ([], query, [])
  | query, n + 1 =>
    let out := getList c uri server query
    let rest := getListIter c uri server out.query n
    (out.result :: rest.1, rest.2.1, out.requests ++ rest.2.2)

/-- Modelled from the spec: the promise-ratelimit package the constructor
instantiates is not part of this repository. Its state is the single
"time of next permitted send" instant, shared by every caller on one
client instance. -/
structure RateLimiterState where
  nextPermitted : Nat

/-- Modelled from the spec: one acquisition at invocation time `now` is
granted at `now` or at the next permitted instant, whichever is later,
and advances the next permitted instant by the interval. It never fails;
it only delays. -/
def rlAcquire (interval : Nat) (s : RateLimiterState) (now : Nat) :
    Nat × RateLimiterState :=
  let grant := max now s.nextPermitted
  (grant, { nextPermitted := grant + interval })

/-- Modelled from the spec: concurrent acquisitions are served strictly
in invocation (FIFO) order against the one shared state; the list of
invocation times is given in arrival order and the grant times come back
in the same order. -/
def rlAcquireAll (interval : Nat) (s : RateLimiterState) :
    List Nat → List Nat × RateLimiterState
  | [] => ([], s)
  | t :: ts =>
    let g := rlAcquire interval s t
    let rest := rlAcquireAll interval g.2 ts
    (g.1 :: rest.1, rest.2)

/-- The interval the constructor passes to promise-ratelimit,
src/index.js line 166. -/
def rateLimitIntervalMs : Nat := 1000

/-- The authenticated GET `_get` from src/index.js lines 355-364, with
the transport abstracted as a function of the URL and the Authorization
header value. The header is computed synchronously while the request
arguments are built, so a ConfigurationError from it is the value of the
whole call and no request is issued; the promise of the `_entry` call is
discarded by the source, so the rate limiter does not gate the request
itself. The raw result goes through `_result` without a query. -/
def getOp (totp : TotpFn) (c : Client) (uri : String) (query : JsObj)
    (server : String → String → RawResponse) :
    Except String NormResult × List String :=
  let url := baseUrlText c ++ "/" ++ uri ++ queryString query
  match authorizationHeader totp c with
  | .error e => (.error e, [])
  | .ok hdr => (.ok (resultNorm (server url hdr) none).1, [url])

end Gfapi
namespace Gfapi

open JsVal Util

/-- A settled primary success page: status SUCCESS, payload `[1,2,3]`,
next_page null (the spec's Result Normalizer success-path response). -/
def exSuccessPage : RawResponse :=
  { data := .obj [("status", .str "SUCCESS"),
                  ("data", .arr [.num 1, .num 2, .num 3]), ("next_page", .null)],
    responseStatusCode := .num 200, responseStatusMessage := .str "OK" }

/-- A settled primary success response with an empty payload and null
next_page (the spec's Result Normalizer empty-path response). -/
def exSuccessEmpty : RawResponse :=
  { data := .obj [("status", .str "SUCCESS"), ("data", .arr []), ("next_page", .null)],
    responseStatusCode := .num 200, responseStatusMessage := .str "OK" }

/-- A settled failure with a structured application error (code 422,
message "trade hold") alongside raw HTTP status 500. -/
def exFail422 : RawResponse :=
  { data := .obj [("status", .str "FAIL"),
                  ("error", .obj [("code", .num 422), ("message", .str "trade hold")])],
    responseStatusCode := .num 500, responseStatusMessage := .str "Internal Server Error" }

/-- A settled secondary success: one asset and last_assetid "99". -/
def exSteamOk : RawResponse :=
  { data := .obj [("success", .bool true), ("assets", .arr [.str "a1"]),
                  ("last_assetid", .str "99")],
    responseStatusCode := .num 200, responseStatusMessage := .str "OK" }

/-- A settled secondary failure under raw HTTP status 503. -/
def exSteamFail : RawResponse :=
  { data := .obj [("success", .bool false)],
    responseStatusCode := .num 503, responseStatusMessage := .str "Service Unavailable" }

/-- A transport stub answering every URL with the success page. -/
def exServer : String → RawResponse := fun _ => exSuccessPage

/-- A transport stub (URL and Authorization header) answering every
request with the success page. -/
def exServerAuth : String → String → RawResponse := fun _ _ => exSuccessPage

/-- A TOTP stub producing the fixed passcode 123456. -/
def exTotp : TotpFn := fun _ => .ok "123456"

/-- A TOTP stub failing as Speakeasy does on a malformed base32 secret. -/
def exBadTotp : TotpFn := fun _ => .error "Invalid base32 character"

/-- A primary success page over an arbitrary payload with an arbitrary
continuation, as a simulated paginated server serves it. -/
def pageResponse (payload : List JsVal) (next : JsVal) : RawResponse :=
  { data := .obj [("status", .str "SUCCESS"), ("data", .arr payload), ("next_page", next)],
    responseStatusCode := .num 200, responseStatusMessage := .str "OK" }

/-- The URL `_getList` builds from the filter fields of the simulated
traversal's query on the first call. -/
def listUrl1 : String := "https://test-gameflip.fingershock.com/api/v1/listing?limit=20"

/-- The opaque continuation the simulated server hands out on page 1. -/
def listUrl2 : String := "https://test-gameflip.fingershock.com/api/v1/listing?page=2"

/-- The opaque continuation the simulated server hands out on page 2. -/
def listUrl3 : String := "https://test-gameflip.fingershock.com/api/v1/listing?page=3"

/-- A simulated three-page server: the two continuation URLs serve pages
2 and 3 (page 3 with a null continuation); every other URL serves page
1 with the continuation to page 2. -/
def threePageServer (p1 p2 p3 : List JsVal) : String → RawResponse := fun url =>
  if url = listUrl2 then pageResponse p2 (.str listUrl3)
  else if url = listUrl3 then pageResponse p3 .null
  else pageResponse p1 (.str listUrl2)

/-- A client built from a test-environment key and an empty secret. -/
def exClient : Client := mkClient "test-0123456789abcde" []

/-- The simulated traversal's initial query: one filter field, no
cursor. -/
def exListQuery : JsObj := [("limit", .num 20)]

/-- A one-field query used to observe that non-cursor fields survive
normalization. -/
def exFilterQuery : JsObj := [("filter", .str "x")]

end Gfapi
namespace Gfapi

open JsVal Util

theorem getFieldObj_setField_self (q : JsObj) (k : String) (v : JsVal) :
    getFieldObj (setField q k v) k = v := by
  induction q with
  | nil => simp [setField, getFieldObj]
  | cons p ps ih =>
    by_cases h : p.1 = k
    · simp [setField, h, getFieldObj]
    · simp only [setField, if_neg h]
      simpa [getFieldObj, List.find?, h] using ih

theorem getFieldObj_setField_ne (q : JsObj) (k k1 : String) (v : JsVal)
    (h : k1 ≠ k) : getFieldObj (setField q k v) k1 = getFieldObj q k1 := by
  induction q with
  | nil => simp [setField, getFieldObj, List.find?, Ne.symm h]
  | cons p ps ih =>
    by_cases hp : p.1 = k
    · subst hp
      simp [setField, getFieldObj, List.find?, Ne.symm h]
    · simp only [setField, if_neg hp]
      by_cases hp1 : p.1 = k1
      · simp [getFieldObj, List.find?, hp1]
      · simpa [getFieldObj, List.find?, hp1] using ih

theorem options_single (x : JsVal) :
    Util.options [x] = if Util.isNull x = true then JsVal.null else x := by
  by_cases h : Util.isNull x = true <;> simp [Util.options, h]

theorem options_cons_not_null (x : JsVal) (xs : List JsVal)
    (h : Util.isNull x = false) : Util.options (x :: xs) = x := by
  simp [Util.options, h]

theorem splitOn_ne_nil (sep : Char) : ∀ xs : List Char, splitOn sep xs ≠ []
  | [] => by simp [splitOn]
  | c :: cs => by
    have h := splitOn_ne_nil sep cs
    simp only [splitOn]
    rcases hs : splitOn sep cs with _ | ⟨h1, t⟩
    · exact absurd hs h
    · by_cases hc : c = sep <;> simp [hc]

theorem splitOn_not_mem (sep : Char) (xs : List Char) (h : sep ∉ xs) :
    splitOn sep xs = [xs] := by
  induction xs with
  | nil => rfl
  | cons c cs ih =>
    have hc : ¬ c = sep := fun e => h (e ▸ List.mem_cons_self c cs)
    have hcs : sep ∉ cs := fun e => h (List.mem_cons_of_mem c e)
    simp [splitOn, ih hcs, hc]

theorem splitOn_append_sep (sep : Char) (pre rest : List Char) (h : sep ∉ pre) :
    splitOn sep (pre ++ sep :: rest) = pre :: splitOn sep rest := by
  induction pre with
  | nil =>
    simp only [List.nil_append, splitOn]
    rcases hs : splitOn sep rest with _ | ⟨h1, t⟩
    · exact absurd hs (splitOn_ne_nil sep rest)
    · simp
  | cons c cs ih =>
    have hc : ¬ c = sep := fun e => h (e ▸ List.mem_cons_self c cs)
    have hcs : sep ∉ cs := fun e => h (List.mem_cons_of_mem c e)
    simp only [List.cons_append, splitOn, List.append_eq]
    rw [ih hcs]
    simp [hc]

theorem hasField_iff_mem (q : JsObj) (k : String) :
    hasField q k = true ↔ k ∈ q.map Prod.fst := by
  simp [hasField, List.any_eq_true]

theorem objectAssign_lookup_not_mem (t src : JsObj) (k : String)
    (h : k ∉ src.map Prod.fst) :
    getFieldObj (objectAssign t src) k = getFieldObj t k := by
  induction src generalizing t with
  | nil => rfl
  | cons p ps ih =>
    simp only [List.map_cons, List.mem_cons, not_or] at h
    have step : objectAssign t (p :: ps) = objectAssign (setField t p.1 p.2) ps := rfl
    rw [step, ih _ h.2]
    exact getFieldObj_setField_ne _ _ _ _ h.1

theorem objectAssign_lookup_mem (t src : JsObj) (k : String)
    (hnd : (src.map Prod.fst).Nodup) (h : hasField src k = true) :
    getFieldObj (objectAssign t src) k = getFieldObj src k := by
  induction src generalizing t with
  | nil => simp [hasField] at h
  | cons p ps ih =>
    rcases p with ⟨k1, v⟩
    simp only [List.map_cons, List.nodup_cons] at hnd
    have step : objectAssign t ((k1, v) :: ps) = objectAssign (setField t k1 v) ps := rfl
    by_cases hp : k1 = k
    · subst hp
      rw [step, objectAssign_lookup_not_mem _ _ _ hnd.1, getFieldObj_setField_self]
      simp [getFieldObj, List.find?]
    · have hps : hasField ps k = true := by
        have h2 := h
        simp only [hasField, List.any_cons, Bool.or_eq_true, decide_eq_true_eq] at h2
        rcases h2 with h2 | h2
        · exact absurd h2 hp
        · exact h2
      rw [step, ih _ hnd.2 hps]
      simp [getFieldObj, List.find?, hp]

theorem rlAcquireAll_length (i : Nat) (s : RateLimiterState) (ts : List Nat) :
    (rlAcquireAll i s ts).1.length = ts.length := by
  induction ts generalizing s with
  | nil => rfl
  | cons t ts ih => simp [rlAcquireAll, rlAcquire, ih]

theorem rlAcquireAll_head_ge (i : Nat) (s : RateLimiterState) (ts : List Nat)
    (b : Nat) (h : (rlAcquireAll i s ts).1.head? = some b) :
    s.nextPermitted ≤ b := by
  cases ts with
  | nil => simp [rlAcquireAll] at h
  | cons t ts =>
    simp only [rlAcquireAll, rlAcquire, List.head?_cons, Option.some_inj] at h
    rw [← h]
    exact le_max_right t s.nextPermitted

theorem rlAcquireAll_chain (i : Nat) (s : RateLimiterState) (ts : List Nat) :
    List.Chain' (fun a b => a + i ≤ b) (rlAcquireAll i s ts).1 := by
  induction ts generalizing s with
  | nil => simp [rlAcquireAll]
  | cons t ts ih =>
    simp only [rlAcquireAll, rlAcquire]
    rw [List.chain'_cons']
    refine ⟨?_, ih _⟩
    intro b hb
    exact rlAcquireAll_head_ge i _ ts b hb

theorem rlAcquireAll_ge_arrival (i : Nat) (s : RateLimiterState) (ts : List Nat) :
    List.Forall₂ (fun t g => t ≤ g) ts (rlAcquireAll i s ts).1 := by
  induction ts generalizing s with
  | nil => exact List.Forall₂.nil
  | cons t ts ih =>
    exact List.Forall₂.cons (le_max_left t s.nextPermitted) (ih _)

end Gfapi
namespace Gfapi

open JsVal Util

/-- C1: on a raw response whose data has status == 'SUCCESS', `_result`
returns the Empty sentinel (the JavaScript null) exactly when next_page
is null-or-absent and data.data is empty-or-absent; otherwise, with a
query supplied, it writes data.next_page (or null when next_page is
null-or-absent) into query.nextPage and returns data.data as the
payload. -/
theorem result_success_contract (raw : RawResponse) (q : JsObj)
    (hs : ((apiDataOf raw).getField "status").looseEqStr "SUCCESS" = true) :
    ((resultNorm raw (some q)).1 = .empty ↔
      (Util.isNull ((apiDataOf raw).getField "next_page") = true ∧
       Util.emptyArray ((apiDataOf raw).getField "data") = true))
    ∧ (¬ (Util.isNull ((apiDataOf raw).getField "next_page") = true ∧
          Util.emptyArray ((apiDataOf raw).getField "data") = true) →
        (resultNorm raw (some q)).1 = .value ((apiDataOf raw).getField "data")
        ∧ (resultNorm raw (some q)).2 =
            some (setField q "nextPage"
              (if Util.isNull ((apiDataOf raw).getField "next_page") = true then JsVal.null
               else (apiDataOf raw).getField "next_page"))) := by
  by_cases hc : (Util.isNull ((apiDataOf raw).getField "next_page") &&
      Util.emptyArray ((apiDataOf raw).getField "data")) = true
  · have hc2 := hc
    rw [Bool.and_eq_true] at hc2
    constructor
    · simp [resultNorm, hs, hc, hc2]
    · intro hn
      exact absurd hc2 hn
  · have hc2 : ¬ (Util.isNull ((apiDataOf raw).getField "next_page") = true ∧
        Util.emptyArray ((apiDataOf raw).getField "data") = true) := by
      rw [← Bool.and_eq_true]; exact hc
    constructor
    · simp [resultNorm, hs, hc, hc2]
    · intro _
      refine ⟨by simp [resultNorm, hs, hc], ?_⟩
      simp [resultNorm, hs, hc, options_single]

/-- Witness for C1: the success page with status SUCCESS, payload
1,2,3 and null next_page yields that payload and a null query.nextPage,
and the page with the same status, an empty payload and null next_page
yields the Empty sentinel. -/
theorem result_success_contract_witness :
    (resultNorm exSuccessPage (some [])).1 = .value (.arr [.num 1, .num 2, .num 3])
    ∧ (resultNorm exSuccessPage (some [])).2 = some [("nextPage", JsVal.null)]
    ∧ (resultNorm exSuccessEmpty (some [])).1 = .empty := by
  refine ⟨?_, ?_, ?_⟩
  · exact ((result_success_contract exSuccessPage [] (by rfl)).2 (by decide)).1
  · exact ((result_success_contract exSuccessPage [] (by rfl)).2 (by decide)).2
  · exact (result_success_contract exSuccessEmpty [] (by rfl)).1.mpr (by decide)

/-- C2: on a raw response whose data does not have status == 'SUCCESS',
`_result` raises an ApiError whose statusCode and statusMessage come from
the application error object's code and message when present, falling
back to the raw transport statusCode and statusMessage; present
structured fields always win, the call never yields a payload or the
Empty sentinel, and the query is untouched. -/
theorem result_failure_contract (raw : RawResponse) (q : Option JsObj)
    (hs : ((apiDataOf raw).getField "status").looseEqStr "SUCCESS" = false) :
    (resultNorm raw q).1 =
      .apiError (Util.options [(errorOf raw).getField "code", raw.responseStatusCode])
                (Util.options [(errorOf raw).getField "message", raw.responseStatusMessage])
    ∧ (Util.isNull ((errorOf raw).getField "code") = false →
        (resultNorm raw q).1 =
          .apiError ((errorOf raw).getField "code")
            (Util.options [(errorOf raw).getField "message", raw.responseStatusMessage]))
    ∧ (Util.isNull ((errorOf raw).getField "message") = false →
        (resultNorm raw q).1 =
          .apiError (Util.options [(errorOf raw).getField "code", raw.responseStatusCode])
            ((errorOf raw).getField "message"))
    ∧ (resultNorm raw q).1 ≠ .empty
    ∧ (∀ v, (resultNorm raw q).1 ≠ .value v)
    ∧ (resultNorm raw q).2 = q := by
  have hmain : (resultNorm raw q).1 =
      .apiError (Util.options [(errorOf raw).getField "code", raw.responseStatusCode])
                (Util.options [(errorOf raw).getField "message", raw.responseStatusMessage]) := by
    simp [resultNorm, hs]
  refine ⟨hmain, ?_, ?_, ?_, ?_, ?_⟩
  · intro h
    rw [hmain, options_cons_not_null _ _ h]
  · intro h
    rw [hmain, options_cons_not_null _ _ h]
  · rw [hmain]; simp
  · intro v; rw [hmain]; simp
  · simp [resultNorm, hs]

/-- Witness for C2: the FAIL response carrying the structured error of
code 422 and message trade hold under raw HTTP status 500 raises
ApiError 422 trade-hold, the structured fields beating the raw status,
and does not produce the Empty sentinel. -/
theorem result_failure_contract_witness :
    (resultNorm exFail422 none).1 = .apiError (.num 422) (.str "trade hold")
    ∧ (resultNorm exFail422 none).1 ≠ .empty := by
  refine ⟨?_, ?_⟩
  · exact (result_failure_contract exFail422 none (by rfl)).2.1 (by decide)
  · exact (result_failure_contract exFail422 none (by rfl)).2.2.2.1

/-- C3: a query whose reserved cursor field is explicitly null before the
call makes the operation return the Empty sentinel at once, with no
request, no rate-limiter acquisition (the request list that counts
`_entry` invocations is empty), and no mutation of the query:
query.nextPage for `_getList`, query.start_assetid for
steam_inventory_get. -/
theorem cursor_null_short_circuit (c : Client) (uri profileid appId : String)
    (server : String → RawResponse) (q qs : JsObj)
    (h1 : getFieldObj q "nextPage" = JsVal.null)
    (h2 : getFieldObj qs "start_assetid" = JsVal.null) :
    getList c uri server q =
      { result := .empty, query := q, requests := [], client := c }
    ∧ steamInventoryGet c profileid appId server qs =
      { result := .empty, query := qs, requests := [], client := c } := by
  constructor
  · unfold getList
    rw [h1]
  · unfold steamInventoryGet
    rw [h2]

/-- Witness for C3: both short circuits at concrete null-cursor
queries. -/
theorem cursor_null_short_circuit_witness :
    getList exClient "listing" exServer [("nextPage", JsVal.null)] =
      { result := .empty, query := [("nextPage", JsVal.null)], requests := [],
        client := exClient }
    ∧ steamInventoryGet exClient "76561198000000000" "730" exServer
        [("start_assetid", JsVal.null)] =
      { result := .empty, query := [("start_assetid", JsVal.null)], requests := [],
        client := exClient } :=
  cursor_null_short_circuit exClient "listing" "76561198000000000" "730" exServer
    [("nextPage", JsVal.null)] [("start_assetid", JsVal.null)] (by rfl) (by rfl)

/-- C4: on a raw response with truthy data.success and more data
indicated, `_steamResult` returns the full data object and writes
data.last_assetid (or null when null-or-absent) into
query.start_assetid; on falsy data.success it raises an ApiError from
the raw transport statusCode and statusMessage. -/
theorem steam_result_contract (raw : RawResponse) (q : JsObj) :
    (((apiDataOf raw).getField "success").truthy = true →
      ¬ (Util.isNull ((apiDataOf raw).getField "more_items") = true ∧
         Util.emptyArray ((apiDataOf raw).getField "assets") = true) →
        (steamResultNorm raw (some q)).1 = .value (apiDataOf raw)
        ∧ (steamResultNorm raw (some q)).2 =
            some (setField q "start_assetid"
              (if Util.isNull ((apiDataOf raw).getField "last_assetid") = true then JsVal.null
               else (apiDataOf raw).getField "last_assetid")))
    ∧ (((apiDataOf raw).getField "success").truthy = false →
        (steamResultNorm raw (some q)).1 =
          .apiError raw.responseStatusCode raw.responseStatusMessage
        ∧ (steamResultNorm raw (some q)).2 = some q) := by
  constructor
  · intro hs hn
    have hc : (Util.isNull ((apiDataOf raw).getField "more_items") &&
        Util.emptyArray ((apiDataOf raw).getField "assets")) = false := by
      rw [← Bool.and_eq_true] at hn
      exact Bool.eq_false_iff.mpr hn
    constructor
    · simp [steamResultNorm, hs, hc]
    · simp [steamResultNorm, hs, hc, options_single]
  · intro hs
    simp [steamResultNorm, hs]

/-- Witness for C4: the successful inventory response with one asset and
last_assetid 99 yields the full object and sets query.start_assetid to
99; the unsuccessful one under raw HTTP status 503 raises ApiError 503
Service Unavailable. -/
theorem steam_result_contract_witness :
    (steamResultNorm exSteamOk (some [])).1 = .value exSteamOk.data
    ∧ (steamResultNorm exSteamOk (some [])).2 = some [("start_assetid", JsVal.str "99")]
    ∧ (steamResultNorm exSteamFail (some [])).1 =
        .apiError (.num 503) (.str "Service Unavailable") := by
  refine ⟨?_, ?_, ?_⟩
  · exact ((steam_result_contract exSteamOk []).1 (by rfl) (by decide)).1
  · exact ((steam_result_contract exSteamOk []).1 (by rfl) (by decide)).2
  · exact ((steam_result_contract exSteamFail []).2 (by rfl)).1

end Gfapi
namespace Gfapi

open JsVal Util

/-- C5: against a simulated three-page server, repeated `_getList` calls
sharing one query object request the built URL once and then each stored
continuation directly, return the three page payloads in order followed
by the Empty sentinel on the fourth call (and on every later call, with
no further request), and the three requested URLs are pairwise distinct,
so no page is fetched twice and the traversal ends in pages-plus-one
calls. -/
theorem pagination_three_pages (p1 p2 p3 : List JsVal) (h3 : p3 ≠ []) :
    getListIter exClient "listing" (threePageServer p1 p2 p3) exListQuery 4 =
      ([.value (.arr p1), .value (.arr p2), .value (.arr p3), .empty],
       [("limit", .num 20), ("nextPage", JsVal.null)],
       [listUrl1, listUrl2, listUrl3])
    ∧ getListIter exClient "listing" (threePageServer p1 p2 p3) exListQuery 5 =
      ([.value (.arr p1), .value (.arr p2), .value (.arr p3), .empty, .empty],
       [("limit", .num 20), ("nextPage", JsVal.null)],
       [listUrl1, listUrl2, listUrl3])
    ∧ listUrl1 ≠ listUrl2 ∧ listUrl1 ≠ listUrl3 ∧ listUrl2 ≠ listUrl3 := by
  obtain ⟨x, xs, rfl⟩ : ∃ x xs, p3 = x :: xs := by
    cases p3 with
    | nil => exact absurd rfl h3
    | cons x xs => exact ⟨x, xs, rfl⟩
  refine ⟨rfl, rfl, by decide, by decide, by decide⟩

/-- Witness for C5: the traversal over concrete one-element pages. -/
theorem pagination_three_pages_witness :
    getListIter exClient "listing"
        (threePageServer [.num 1] [.num 2] [.num 3]) exListQuery 4 =
      ([.value (.arr [.num 1]), .value (.arr [.num 2]), .value (.arr [.num 3]), .empty],
       [("limit", .num 20), ("nextPage", JsVal.null)],
       [listUrl1, listUrl2, listUrl3]) :=
  (pagination_three_pages [.num 1] [.num 2] [.num 3] (by simp)).1

/-- C6: the rate limiter the constructor creates with the system default
interval of 1000 ms grants one acquisition per caller (it never fails),
serves concurrent acquisitions strictly in invocation order against the
one shared next-permitted instant, spaces consecutive grant starts by at
least the interval (hence strictly forward in time), and never grants
before the acquisition is invoked. -/
theorem rate_limiter_contract (s : RateLimiterState) (ts : List Nat) :
    (rlAcquireAll rateLimitIntervalMs s ts).1.length = ts.length
    ∧ List.Chain' (fun a b => a + rateLimitIntervalMs ≤ b)
        (rlAcquireAll rateLimitIntervalMs s ts).1
    ∧ List.Chain' (fun a b => a < b) (rlAcquireAll rateLimitIntervalMs s ts).1
    ∧ List.Forall₂ (fun t g => t ≤ g) ts (rlAcquireAll rateLimitIntervalMs s ts).1 := by
  refine ⟨rlAcquireAll_length _ _ _, rlAcquireAll_chain _ _ _, ?_,
    rlAcquireAll_ge_arrival _ _ _⟩
  refine (rlAcquireAll_chain rateLimitIntervalMs s ts).imp ?_
  intro a b hab
  have hi : rateLimitIntervalMs = 1000 := rfl
  omega

/-- C7: a key with no dash selects the production base URL; a key
prefixed production-, test- or development- selects the corresponding
base URL of the table, production being the no-prefix default. -/
theorem base_url_selection (key rest : List Char) (h : '-' ∉ key) :
    baseUrlOf key = some "https://production-gameflip.fingershock.com/api/v1"
    ∧ baseUrlOf ("production".toList ++ '-' :: rest) =
        some "https://production-gameflip.fingershock.com/api/v1"
    ∧ baseUrlOf ("test".toList ++ '-' :: rest) =
        some "https://test-gameflip.fingershock.com/api/v1"
    ∧ baseUrlOf ("development".toList ++ '-' :: rest) =
        some "http://localhost:3000/api/v1" := by
  have hne := splitOn_ne_nil '-' rest
  have hlen0 : (splitOn '-' rest).length ≠ 0 := by
    simpa [List.length_eq_zero] using hne
  have hcond : ∀ pre : List Char,
      (((pre :: splitOn '-' rest).length == 1) = false) := by
    intro pre
    simp only [List.length_cons, beq_eq_false_iff_ne]
    omega
  refine ⟨?_, ?_, ?_, ?_⟩
  · unfold baseUrlOf
    rw [splitOn_not_mem '-' key h]
    simp
  · unfold baseUrlOf
    rw [splitOn_append_sep '-' _ rest (by decide)]
    simp only [hcond]
    rfl
  · unfold baseUrlOf
    rw [splitOn_append_sep '-' _ rest (by decide)]
    simp only [hcond]
    rfl
  · unfold baseUrlOf
    rw [splitOn_append_sep '-' _ rest (by decide)]
    simp only [hcond]
    rfl

/-- Witness for C7: a bare key and a test-prefixed key at concrete
values. -/
theorem base_url_selection_witness :
    baseUrlOf "0123456789abcde".toList =
      some "https://production-gameflip.fingershock.com/api/v1"
    ∧ baseUrlOf "test-0123456789abcde".toList =
      some "https://test-gameflip.fingershock.com/api/v1" := by
  have h := base_url_selection "0123456789abcde".toList "0123456789abcde".toList
    (by decide)
  exact ⟨h.1, h.2.2.1⟩

/-- C8: the authorization header value is the fixed scheme literal GFAPI,
a space, the API key, a colon and the passcode computed from the merged
secret; the merged secret defaults to base32 encoding, sha1, 6 digits and
a 30-second period, each caller-supplied field overriding its
default. -/
theorem authorization_header_contract (totp : TotpFn) (key : String)
    (secret : JsObj) (code : String) (hnd : (secret.map Prod.fst).Nodup)
    (hok : totp (objectAssign secretDefaults secret) = .ok code) :
    authorizationHeader totp (mkClient key secret) =
      .ok ("GFAPI " ++ key ++ ":" ++ code)
    ∧ (mkClient key secret).secret = objectAssign secretDefaults secret
    ∧ (∀ k, getFieldObj (mkClient key secret).secret k =
        if hasField secret k = true then getFieldObj secret k
        else getFieldObj secretDefaults k)
    ∧ getFieldObj secretDefaults "encoding" = .str "base32"
    ∧ getFieldObj secretDefaults "algorithm" = .str "sha1"
    ∧ getFieldObj secretDefaults "digits" = .num 6
    ∧ getFieldObj secretDefaults "period" = .num 30 := by
  refine ⟨?_, rfl, ?_, rfl, rfl, rfl, rfl⟩
  · simp [authorizationHeader, mkClient, hok]
  · intro k
    by_cases hk : hasField secret k = true
    · rw [if_pos hk]
      exact objectAssign_lookup_mem _ _ _ hnd hk
    · rw [if_neg hk]
      have hmem : k ∉ secret.map Prod.fst := by
        rw [← hasField_iff_mem]
        simp [hk]
      exact objectAssign_lookup_not_mem _ _ _ hmem

/-- Witness for C8: a stub passcode 123456 and a one-field secret give
the header GFAPI test-k:123456 and keep the digits default 6. -/
theorem authorization_header_contract_witness :
    authorizationHeader exTotp (mkClient "test-k" [("secret", JsVal.str "S3CR3T")]) =
      .ok "GFAPI test-k:123456"
    ∧ getFieldObj (mkClient "test-k" [("secret", JsVal.str "S3CR3T")]).secret "digits" =
      .num 6 := by
  have h := authorization_header_contract exTotp "test-k"
    [("secret", JsVal.str "S3CR3T")] "123456" (by simp) (by rfl)
  exact ⟨h.1, h.2.2.1 "digits"⟩

/-- C9: when the passcode computation rejects the secret as malformed,
the ConfigurationError is the value of header generation itself and the
whole authenticated GET fails with that error before any transport
request is issued, so it reaches the immediate caller and is never
swallowed. -/
theorem config_error_propagates (totp : TotpFn) (c : Client) (uri : String)
    (query : JsObj) (server : String → String → RawResponse) (e : String)
    (h : totp c.secret = .error e) :
    authorizationHeader totp c = .error e
    ∧ getOp totp c uri query server = (.error e, []) := by
  have h1 : authorizationHeader totp c = .error e := by
    simp [authorizationHeader, h]
  exact ⟨h1, by simp [getOp, h1]⟩

/-- Witness for C9: the malformed-secret stub fails header generation
and the GET pipeline with the same error and zero requests. -/
theorem config_error_propagates_witness :
    authorizationHeader exBadTotp exClient = .error "Invalid base32 character"
    ∧ getOp exBadTotp exClient "account/me/profile" [] exServerAuth =
      (.error "Invalid base32 character", []) :=
  config_error_propagates exBadTotp exClient "account/me/profile" [] exServerAuth
    "Invalid base32 character" (by rfl)

/-- C10: a normalizer call with a query mutates at most the reserved
cursor field of the query (nextPage for `_result`, start_assetid for
`_steamResult`): every other field reads back unchanged; and the list
operations leave the client state (apiKey, merged secret, base URL)
exactly as it was. -/
theorem normalizer_frame (raw : RawResponse) (q : JsObj) (k : String) (c : Client)
    (uri profileid appId : String) (server : String → RawResponse) :
    (∀ q1, (resultNorm raw (some q)).2 = some q1 → k ≠ "nextPage" →
        getFieldObj q1 k = getFieldObj q k)
    ∧ (∀ q1, (steamResultNorm raw (some q)).2 = some q1 → k ≠ "start_assetid" →
        getFieldObj q1 k = getFieldObj q k)
    ∧ (getList c uri server q).client = c
    ∧ (steamInventoryGet c profileid appId server q).client = c := by
  refine ⟨?_, ?_, ?_, ?_⟩
  · intro q1 h hk
    by_cases hs : ((apiDataOf raw).getField "status").looseEqStr "SUCCESS" = true
    · by_cases hc : (Util.isNull ((apiDataOf raw).getField "next_page") &&
          Util.emptyArray ((apiDataOf raw).getField "data")) = true
      · simp [resultNorm, hs, hc] at h
        subst h; rfl
      · simp [resultNorm, hs, hc] at h
        rw [← h, getFieldObj_setField_ne _ _ _ _ hk]
    · rw [Bool.not_eq_true] at hs
      simp [resultNorm, hs] at h
      subst h; rfl
  · intro q1 h hk
    by_cases hs : ((apiDataOf raw).getField "success").truthy = true
    · by_cases hc : (Util.isNull ((apiDataOf raw).getField "more_items") &&
          Util.emptyArray ((apiDataOf raw).getField "assets")) = true
      · simp [steamResultNorm, hs, hc] at h
        subst h; rfl
      · simp [steamResultNorm, hs, hc] at h
        rw [← h, getFieldObj_setField_ne _ _ _ _ hk]
    · rw [Bool.not_eq_true] at hs
      simp [steamResultNorm, hs] at h
      subst h; rfl
  · unfold getList
    split <;> rfl
  · unfold steamInventoryGet
    split <;> rfl

/-- Witness for C10: after normalizing the success page a non-cursor
filter field reads back unchanged, and a list call returns the client
as it was. -/
theorem normalizer_frame_witness :
    getFieldObj [("filter", JsVal.str "x"), ("nextPage", JsVal.null)] "filter" =
      getFieldObj exFilterQuery "filter"
    ∧ (getList exClient "listing" exServer exFilterQuery).client = exClient := by
  constructor
  · exact (normalizer_frame exSuccessPage exFilterQuery "filter" exClient "listing"
      "76561198000000000" "730" exServer).1
      [("filter", JsVal.str "x"), ("nextPage", JsVal.null)] (by rfl) (by decide)
  · exact (normalizer_frame exSuccessPage exFilterQuery "filter" exClient "listing"
      "76561198000000000" "730" exServer).2.2.1

end Gfapi
